import Mathlib

/-!
Shallow embedding of the service configuration and health-reporting module:
`app/config.py` (environment-file resolution, `Settings`, `get_settings`)
and `app/api/v1/health.py` (the `health` endpoint handler).

The process environment and the contents of dotenv files are modelled as
association lists of string pairs; the filesystem is modelled as an
association list from file name to file contents.  The external database
probe in the health handler is modelled by its outcome (`ProbeResult`):
the handler's own logic is fully in source, only the probe outcome is
external input.
-/

/-- A process environment or a parsed dotenv file: ordered key/value pairs. -/
abbrev Env := List (String × String)

/-- A filesystem: file name to contents (present iff the file exists).
Mirrors the `os.path.exists` / file-loading surface used by `config.py`. -/
abbrev FS := List (String × Env)

/-- Python `str.lower()` (ASCII case folding), by structural recursion over
the character list so concrete instances evaluate. -/
def pyLower (s : String) : String :=
  ⟨s.data.map Char.toLower⟩

/-- Python's whitespace set for `str.strip()` (the ASCII part). -/
def isPySpace (c : Char) : Bool :=
  c == ' ' || c == '\t' || c == '\n' || c == '\r' || c == '\x0b' || c == '\x0c'

/-- Python `str.strip()`: drop leading and trailing whitespace. -/
def pyStrip (s : String) : String :=
  ⟨((s.data.dropWhile isPySpace).reverse.dropWhile isPySpace).reverse⟩

/-- Splitting a character list on a separator character; the empty string
yields one empty segment, as Python's `"".split(",") == [""]`. -/
def pySplitAux (sep : Char) : List Char → List Char → List (List Char)
  | [], acc => [acc.reverse]
  | c :: rest, acc =>
    if c == sep then acc.reverse :: pySplitAux sep rest []
    else pySplitAux sep rest (c :: acc)

/-- Python `str.split(sep)` for a one-character separator. -/
def pySplit (sep : Char) (s : String) : List String :=
  (pySplitAux sep s.data []).map (fun l => ⟨l⟩)

/-- Case-sensitive environment lookup, as `os.getenv` / `k in os.environ`. -/
def getenvCS (env : Env) (k : String) : Option String :=
  (env.find? (fun p => p.1 == k)).map Prod.snd

/-- Case-insensitive lookup, as pydantic field matching with case_sensitive False. -/
def lookupCI (env : Env) (name : String) : Option String :=
  (env.find? (fun p => pyLower p.1 == pyLower name)).map Prod.snd

/-- Set an environment key, as assignment into `os.environ` (a dict): the old
binding for the key is dropped and the new one recorded. -/
def os_setenv (env : Env) (k v : String) : Env :=
  (env.filter (fun p => p.1 != k)) ++ [(k, v)]

/-- File lookup: `some` contents iff the file exists. -/
def fsGet (fs : FS) (name : String) : Option Env :=
  (fs.find? (fun p => p.1 == name)).map Prod.snd

/-- Mirrors `os.path.exists`. -/
def os_path_exists (fs : FS) (name : String) : Bool :=
  (fsGet fs name).isSome

/-- python-dotenv parses a file into a dict: a later occurrence of a key
overrides an earlier one within the same file. -/
def parse_dotenv (file : Env) : Env :=
  file.foldl (fun d kv => (d.filter (fun p => p.1 != kv.1)) ++ [kv]) []

/-- One step of `load_dotenv`: a parsed key is written into the environment
when `override` is set or the key is absent; otherwise the existing entry
is kept (python-dotenv's `override=False` default). -/
def dotenv_step (ov : Bool) (e : Env) (kv : String × String) : Env :=
  if ov || (getenvCS e kv.1).isNone then os_setenv e kv.1 kv.2 else e

/-- `load_dotenv(file, override=ov)`: parse the file and merge it into the
process environment.  A missing file is modelled by empty contents (no-op). -/
def load_dotenv (file : Env) (ov : Bool) (env : Env) : Env :=
  (parse_dotenv file).foldl (dotenv_step ov) env

/-- The fixed selector-to-file lookup table of `config.py` (`env_file_map`). -/
def env_file_map : List (String × String) :=
  [("production", ".env.production"), ("staging", ".env.staging"),
   ("test", ".env.test"), ("development", ".env.local")]

/-- `env_file_map.get(env, ".env")`: unrecognized selectors map to ".env". -/
def envFileFor (sel : String) : String :=
  ((env_file_map.find? (fun p => p.1 == sel)).map Prod.snd).getD ".env"

/-- Module-level environment resolution of `config.py`: read `ENVIRONMENT`
(default "development"), pick the tiered file; if it exists load it with
the default `override=False`, otherwise fall back to loading ".env" with
`override=False`. -/
def resolveEnv (fs : FS) (env0 : Env) : Env :=
  let sel := (getenvCS env0 "ENVIRONMENT").getD "development"
  let envFile := envFileFor sel
  if os_path_exists fs envFile then
    load_dotenv ((fsGet fs envFile).getD []) false env0
  else
    load_dotenv ((fsGet fs ".env").getD []) false env0

/-- A Python value that is either a `str` or a `list [str]`; needed because
the declared default of the `cors_origins` field is a Python list while the
annotation says `str` (pydantic does not validate defaults). -/
inductive PyStrOrList where
  | pstr (s : String)
  | plist (l : List String)
deriving DecidableEq

/-- The `Settings` model of `config.py`, field for field. -/
structure Settings where
  supabase_url : String
  supabase_anon_key : String
  supabase_service_role_key : String
  supabase_jwt_secret : String
  supabase_db_url : Option String
  supabase_db_password : Option String
  supabase_access_token : Option String
  jwt_secret_key : String
  jwt_algorithm : String
  jwt_access_token_expire_minutes : Int
  jwt_refresh_token_expire_days : Int
  environment : String
  debug : String
  api_version : String
  cors_origins : PyStrOrList
  media_max_file_size_mb : Int
  media_max_memory_size_mb : Int
  media_thumbnail_size : Int
  media_upload_url_expires_seconds : Int
  media_access_url_expires_seconds : Int
  storage_bucket_name : String
  cloudflare_tunnel_token : Option String
deriving DecidableEq

/-- `is_debug` property: `self.debug.lower() == "true"`. -/
def Settings.is_debug (s : Settings) : Bool :=
  pyLower s.debug == "true"

/-- `cors_origins_list` property:
`[origin.strip() for origin in self.cors_origins.split(",")]`.
When the stored value is a Python list (the unvalidated default), `.split`
raises `AttributeError`; that failure is modelled as `none`. -/
def Settings.cors_origins_list (s : Settings) : Option (List String) :=
  match s.cors_origins with
  | .pstr str => some ((pySplit ',' str).map pyStrip)
  | .plist _ => none

/-- The default Python-list value of the `cors_origins` field:
`os.getenv("CORS_ORIGINS", [...])` returns this list when the variable
is absent at module import. -/
def corsDefaultList : List String :=
  ["http://localhost:5173, http://localhost:3000", "timelesslove.ai"]

/-- The declared default of `cors_origins`, evaluated at module import:
the raw environment string when `CORS_ORIGINS` is set, the Python list
otherwise. -/
def corsDefault (env : Env) : PyStrOrList :=
  match getenvCS env "CORS_ORIGINS" with
  | some s => PyStrOrList.pstr s
  | none => PyStrOrList.plist corsDefaultList

/-- pydantic-settings field resolution: environment variables beat the
model_config dotenv file (".env"); both match case-insensitively. -/
def resolveField (env dotenv : Env) (name : String) : Option String :=
  match lookupCI env name with
  | some v => some v
  | none => lookupCI dotenv name

/-- The required (no-default) fields of `Settings`. -/
def requiredFields : List String :=
  ["supabase_url", "supabase_anon_key", "supabase_service_role_key",
   "supabase_jwt_secret", "jwt_secret_key"]

/-- The integer-typed fields with their declared defaults. -/
def intFields : List (String × Int) :=
  [("jwt_access_token_expire_minutes", 15),
   ("jwt_refresh_token_expire_days", 7),
   ("media_max_file_size_mb", 50),
   ("media_max_memory_size_mb", 200),
   ("media_thumbnail_size", 400),
   ("media_upload_url_expires_seconds", 300),
   ("media_access_url_expires_seconds", 3600)]

/-- pydantic lax coercion of an environment string to int. -/
def parsePyInt (s : String) : Option Int :=
  (pyStrip s).toInt?

/-- The required fields a construction attempt finds missing; pydantic
reports every one of them in its validation error, not just the first. -/
def missingRequired (env dotenv : Env) : List String :=
  requiredFields.filter (fun n => (resolveField env dotenv n).isNone)

/-- The integer fields whose supplied value fails int coercion. -/
def intErrors (env dotenv : Env) : List String :=
  (intFields.filter (fun p =>
    match resolveField env dotenv p.1 with
    | some v => (parsePyInt v).isNone
    | none => false)).map Prod.fst

/-- All field names a pydantic `ValidationError` for `Settings` would list. -/
def constructionErrors (env dotenv : Env) : List String :=
  missingRequired env dotenv ++ intErrors env dotenv

/-- Resolve a string field with a declared default. -/
def strField (env dotenv : Env) (name dflt : String) : String :=
  (resolveField env dotenv name).getD dflt

/-- Resolve an `Optional[str]` field (default None). -/
def optField (env dotenv : Env) (name : String) : Option String :=
  resolveField env dotenv name

/-- Resolve an int field with a declared default.  The inner `getD` is
unreachable on the success path: a supplied unparsable value is already a
construction error. -/
def intField (env dotenv : Env) (name : String) (dflt : Int) : Int :=
  match resolveField env dotenv name with
  | some v => (parsePyInt v).getD dflt
  | none => dflt

/-- `Settings()` construction: validate every field against the environment
and the model_config ".env" file, collecting all errors; on success build
the record.  The required-field extractions use `getD ""` only because the
success branch guarantees presence. -/
def Settings.construct (env dotenv : Env) : Except (List String) Settings :=
  let errs := constructionErrors env dotenv
  if errs.isEmpty then
    Except.ok
      { supabase_url := strField env dotenv "supabase_url" ""
        supabase_anon_key := strField env dotenv "supabase_anon_key" ""
        supabase_service_role_key := strField env dotenv "supabase_service_role_key" ""
        supabase_jwt_secret := strField env dotenv "supabase_jwt_secret" ""
        supabase_db_url := optField env dotenv "supabase_db_url"
        supabase_db_password := optField env dotenv "supabase_db_password"
        supabase_access_token := optField env dotenv "supabase_access_token"
        jwt_secret_key := strField env dotenv "jwt_secret_key" ""
        jwt_algorithm := strField env dotenv "jwt_algorithm" "HS256"
        jwt_access_token_expire_minutes := intField env dotenv "jwt_access_token_expire_minutes" 15
        jwt_refresh_token_expire_days := intField env dotenv "jwt_refresh_token_expire_days" 7
        environment := strField env dotenv "environment" "development"
        debug := strField env dotenv "debug" "false"
        api_version := strField env dotenv "api_version" "v1"
        cors_origins :=
          match resolveField env dotenv "cors_origins" with
          | some v => PyStrOrList.pstr v
          | none => corsDefault env
        media_max_file_size_mb := intField env dotenv "media_max_file_size_mb" 50
        media_max_memory_size_mb := intField env dotenv "media_max_memory_size_mb" 200
        media_thumbnail_size := intField env dotenv "media_thumbnail_size" 400
        media_upload_url_expires_seconds := intField env dotenv "media_upload_url_expires_seconds" 300
        media_access_url_expires_seconds := intField env dotenv "media_access_url_expires_seconds" 3600
        storage_bucket_name := strField env dotenv "storage_bucket_name" "memories"
        cloudflare_tunnel_token := optField env dotenv "cloudflare_tunnel_token" }
  else
    Except.error errs

/-- The ".env" contents pydantic's model_config makes it read at every
construction (empty when the file does not exist). -/
def pydotenv (fs : FS) : Env :=
  parse_dotenv ((fsGet fs ".env").getD [])

/-- The value a `Settings` field receives under the whole pipeline: the
module-level dotenv mutation of the process environment, then pydantic's
own source order (env vars, then ".env", then defaults). -/
def resolvedFieldValue (fs : FS) (env0 : Env) (name : String) : Option String :=
  resolveField (resolveEnv fs env0) (pydotenv fs) name

/-- `get_settings()`: the module-global `_settings` cache is threaded as
explicit state.  A cached instance is returned untouched; otherwise
`Settings()` is constructed and cached, and a validation error propagates
(leaving the cache empty). -/
def get_settings (cached : Option Settings) (env dotenv : Env) :
    Except (List String) (Settings × Option Settings) :=
  match cached with
  | some s => Except.ok (s, some s)
  | none =>
    match Settings.construct env dotenv with
    | Except.ok s => Except.ok (s, some s)
    | Except.error e => Except.error e

/-- Outcome of the database probe
(`supabase.table("family_units").select(...).execute()`): success, or an
exception carrying its `str(e)` description. -/
inductive ProbeResult where
  | success
  | failure (msg : String)

/-- The `health` handler of `app/api/v1/health.py`: build the base document
from settings, then record the probe outcome; every exception from the
probe is caught and downgraded to the `database` / `database_error` fields. -/
def health (s : Settings) (probe : ProbeResult) : List (String × String) :=
  let base := [("status", "healthy"), ("version", s.api_version),
               ("environment", s.environment)]
  match probe with
  | .success => base ++ [("database", "connected")]
  | .failure e => base ++ [("database", "disconnected"), ("database_error", e)]

/-- Key lookup in a returned status document. -/
def docGet (doc : List (String × String)) (k : String) : Option String :=
  (doc.find? (fun p => p.1 == k)).map Prod.snd

/-! Concrete fixtures used by witnesses and counterexamples. -/

/-- An environment supplying exactly the five required fields. -/
def goodEnv : Env :=
  [("SUPABASE_URL", "https://example.supabase.co"),
   ("SUPABASE_ANON_KEY", "anon-key"),
   ("SUPABASE_SERVICE_ROLE_KEY", "service-key"),
   ("SUPABASE_JWT_SECRET", "jwt-secret"),
   ("JWT_SECRET_KEY", "app-secret")]

/-- The settings `Settings.construct goodEnv []` produces: supplied values
for the required fields, declared defaults everywhere else (and the
unvalidated Python-list default for `cors_origins`). -/
def goodSettings : Settings :=
  { supabase_url := "https://example.supabase.co"
    supabase_anon_key := "anon-key"
    supabase_service_role_key := "service-key"
    supabase_jwt_secret := "jwt-secret"
    supabase_db_url := none
    supabase_db_password := none
    supabase_access_token := none
    jwt_secret_key := "app-secret"
    jwt_algorithm := "HS256"
    jwt_access_token_expire_minutes := 15
    jwt_refresh_token_expire_days := 7
    environment := "development"
    debug := "false"
    api_version := "v1"
    cors_origins := PyStrOrList.plist corsDefaultList
    media_max_file_size_mb := 50
    media_max_memory_size_mb := 200
    media_thumbnail_size := 400
    media_upload_url_expires_seconds := 300
    media_access_url_expires_seconds := 3600
    storage_bucket_name := "memories"
    cloudflare_tunnel_token := none }

/-- A `goodSettings` variant with a chosen raw debug string. -/
def withDebug (d : String) : Settings :=
  { goodSettings with debug := d }

/-- A process environment that pre-defines SUPABASE_URL before file loading. -/
def c3env : Env := [("ENVIRONMENT", "production"), ("SUPABASE_URL", "preexisting")]

/-- A filesystem whose tiered production file redefines SUPABASE_URL. -/
def c3fs : FS := [(".env.production", [("SUPABASE_URL", "fromfile")])]

/-- A process environment selecting the production tier and nothing else. -/
def c4env : Env := [("ENVIRONMENT", "production")]

/-- Both the tiered production file and the generic ".env" exist; they
overlap on SUPABASE_URL, and JWT_SECRET_KEY appears only in ".env". -/
def c4fs : FS :=
  [(".env.production", [("SUPABASE_URL", "prod-url")]),
   (".env", [("SUPABASE_URL", "generic-url"), ("JWT_SECRET_KEY", "generic-secret")])]

/-- An environment supplying only one of the five required fields. -/
def c5env : Env := [("SUPABASE_URL", "u")]

/-- An environment supplying the empty string for every required field. -/
def c6env : Env :=
  [("SUPABASE_URL", ""), ("SUPABASE_ANON_KEY", ""),
   ("SUPABASE_SERVICE_ROLE_KEY", ""), ("SUPABASE_JWT_SECRET", ""),
   ("JWT_SECRET_KEY", "")]

/-- The settings `Settings.construct c6env []` produces: every required
field holds the empty string and construction still succeeds. -/
def c6settings : Settings :=
  { supabase_url := ""
    supabase_anon_key := ""
    supabase_service_role_key := ""
    supabase_jwt_secret := ""
    supabase_db_url := none
    supabase_db_password := none
    supabase_access_token := none
    jwt_secret_key := ""
    jwt_algorithm := "HS256"
    jwt_access_token_expire_minutes := 15
    jwt_refresh_token_expire_days := 7
    environment := "development"
    debug := "false"
    api_version := "v1"
    cors_origins := PyStrOrList.plist corsDefaultList
    media_max_file_size_mb := 50
    media_max_memory_size_mb := 200
    media_thumbnail_size := 400
    media_upload_url_expires_seconds := 300
    media_access_url_expires_seconds := 3600
    storage_bucket_name := "memories"
    cloudflare_tunnel_token := none }

/-! Helper lemmas about environment mutation and dotenv merging. -/

/-- Entries whose key differs from `k` survive the filter `os_setenv` uses,
so a lookup for a different key is unchanged by it. -/
lemma find?_filter_ne (l : Env) (k k2 : String) (h : k2 ≠ k) :
    (l.filter (fun p => p.1 != k)).find? (fun p => p.1 == k2) =
      l.find? (fun p => p.1 == k2) := by
  induction l with
  | nil => rfl
  | cons a tl ih =>
    by_cases ha : a.1 = k
    · have h1 : (a.1 != k) = false := by simp [ha]
      have h2 : (a.1 == k2) = false := by simp [ha]; exact fun hc => (h hc.symm).elim
      simp [List.filter_cons, h1, List.find?_cons, h2, ih]
    · have h1 : (a.1 != k) = true := by simp [ha]
      by_cases hb : a.1 = k2
      · simp [List.filter_cons, h1, List.find?_cons, hb, h]
      · have h2 : (a.1 == k2) = false := by simp [hb]
        simp [List.filter_cons, h1, List.find?_cons, h2, ih]

/-- No entry with key `k` survives the filter `os_setenv` uses. -/
lemma find?_filter_self (l : Env) (k : String) :
    (l.filter (fun p => p.1 != k)).find? (fun p => p.1 == k) = none := by
  induction l with
  | nil => rfl
  | cons a tl ih =>
    by_cases ha : a.1 = k
    · have h1 : (a.1 != k) = false := by simp [ha]
      simp [List.filter_cons, h1, ih]
    · have h1 : (a.1 != k) = true := by simp [ha]
      have h2 : (a.1 == k) = false := by simp [ha]
      simp [List.filter_cons, h1, List.find?_cons, h2, ih]

/-- Setting key `k1` yields `v1` when looking up `k1` and leaves every
other lookup unchanged. -/
lemma getenvCS_os_setenv (e : Env) (k1 v1 k : String) :
    getenvCS (os_setenv e k1 v1) k = if k1 = k then some v1 else getenvCS e k := by
  by_cases h : k1 = k
  · subst h
    simp [getenvCS, os_setenv, List.find?_append, find?_filter_self]
  · simp [getenvCS, os_setenv, List.find?_append, find?_filter_ne e k1 k (Ne.symm h), h]

/-- Merging a parsed file without override never disturbs a key the
environment already defines. -/
lemma foldl_dotenv_step_some (L : Env) (e : Env) (k v : String)
    (h : getenvCS e k = some v) :
    getenvCS (L.foldl (dotenv_step false) e) k = some v := by
  induction L generalizing e with
  | nil => exact h
  | cons kv tl ih =>
    simp only [List.foldl_cons, dotenv_step, Bool.false_or]
    by_cases habs : (getenvCS e kv.1).isNone
    · have hne : kv.1 ≠ k := by
        intro hk
        rw [hk, h] at habs
        simp at habs
      rw [if_pos habs]
      exact ih (os_setenv e kv.1 kv.2) (by rw [getenvCS_os_setenv, if_neg hne]; exact h)
    · rw [if_neg habs]
      exact ih e h

/-- Merging a parsed file without override fills a key the environment does
not define with the file's binding for it (its first in merge order). -/
lemma foldl_dotenv_step_none (L : Env) (e : Env) (k : String)
    (h : getenvCS e k = none) :
    getenvCS (L.foldl (dotenv_step false) e) k = getenvCS L k := by
  induction L generalizing e with
  | nil => exact h
  | cons kv tl ih =>
    simp only [List.foldl_cons, dotenv_step, Bool.false_or]
    by_cases hk : kv.1 = k
    · have habs : (getenvCS e kv.1).isNone := by rw [hk, h]; rfl
      rw [if_pos habs]
      have hset : getenvCS (os_setenv e kv.1 kv.2) k = some kv.2 := by
        rw [getenvCS_os_setenv, if_pos hk]
      rw [foldl_dotenv_step_some tl _ k kv.2 hset]
      have : (kv.1 == k) = true := by simp [hk]
      simp [getenvCS, List.find?_cons, this]
    · have hne : (kv.1 == k) = false := by simp [hk]
      have hrest : getenvCS (kv :: tl) k = getenvCS tl k := by
        simp [getenvCS, List.find?_cons, hne]
      rw [hrest]
      by_cases habs : (getenvCS e kv.1).isNone
      · rw [if_pos habs]
        exact ih _ (by rw [getenvCS_os_setenv, if_neg hk]; exact h)
      · rw [if_neg habs]
        exact ih e h

/-- `load_dotenv file override=False`: an existing environment entry always
wins; an absent key receives the parsed file's binding if it has one. -/
lemma getenvCS_load_dotenv (file env : Env) (k : String) :
    getenvCS (load_dotenv file false env) k =
      match getenvCS env k with
      | some v => some v
      | none => getenvCS (parse_dotenv file) k := by
  cases h : getenvCS env k with
  | some v => exact foldl_dotenv_step_some (parse_dotenv file) env k v h
  | none => exact foldl_dotenv_step_none (parse_dotenv file) env k h

/-- When the tiered override file exists, module-level resolution is the
no-override merge of exactly that file into the process environment. -/
lemma resolveEnv_tiered (fs : FS) (env0 : Env) (F : Env)
    (hF : fsGet fs (envFileFor ((getenvCS env0 "ENVIRONMENT").getD "development")) = some F) :
    resolveEnv fs env0 = load_dotenv F false env0 := by
  rw [resolveEnv]
  simp only [os_path_exists, hF, Option.isSome_some, if_true, Option.getD_some]

/-! Claim theorems. -/

/-- C1 (amended): whenever the database probe raises, the health handler
does not propagate the exception: it still returns a document with
status "healthy", database "disconnected", and database_error set to the
failure's description string `str(e)` — which is empty exactly when the
exception's message is empty, not always non-empty. -/
theorem c1_health_failure_reports (s : Settings) (msg : String) :
    docGet (health s (ProbeResult.failure msg)) "status" = some "healthy" ∧
    docGet (health s (ProbeResult.failure msg)) "database" = some "disconnected" ∧
    docGet (health s (ProbeResult.failure msg)) "database_error" = some msg :=
  ⟨rfl, rfl, rfl⟩

/-- C1 counterexample: a probe exception whose message is empty (as for
`raise Exception()`, where `str(e)` is `""`) yields `database_error = ""`,
an empty string — refuting the claim that `database_error` is always a
non-empty string. -/
theorem c1_empty_error_counterexample :
    docGet (health goodSettings (ProbeResult.failure "")) "database_error" = some "" ∧
    String.isEmpty "" = true := by
  exact ⟨rfl, rfl⟩

/-- C2: when the probe succeeds, the health document has status "healthy",
version = the settings' api_version, environment = the settings'
environment, database "connected" and no database_error key; version and
environment are present for every probe outcome. -/
theorem c2_health_success_fields (s : Settings) :
    docGet (health s ProbeResult.success) "status" = some "healthy" ∧
    docGet (health s ProbeResult.success) "version" = some s.api_version ∧
    docGet (health s ProbeResult.success) "environment" = some s.environment ∧
    docGet (health s ProbeResult.success) "database" = some "connected" ∧
    docGet (health s ProbeResult.success) "database_error" = none ∧
    ("database_error" ∈ (health s ProbeResult.success).map Prod.fst → False) ∧
    (∀ pr, docGet (health s pr) "version" = some s.api_version ∧
           docGet (health s pr) "environment" = some s.environment) := by
  refine ⟨rfl, rfl, rfl, rfl, rfl, ?_, ?_⟩
  · intro h
    simp [health] at h
  · intro pr
    cases pr <;> exact ⟨rfl, rfl⟩

/-- C10: the health document's key list is exactly
[status, version, environment, database] when the probe succeeds and
exactly [status, version, environment, database, database_error] when it
fails; in particular the database key is never omitted. -/
theorem c10_health_key_set_exact (s : Settings) :
    (health s ProbeResult.success).map Prod.fst =
      ["status", "version", "environment", "database"] ∧
    (∀ msg, (health s (ProbeResult.failure msg)).map Prod.fst =
      ["status", "version", "environment", "database", "database_error"]) ∧
    (∀ pr, "database" ∈ (health s pr).map Prod.fst) := by
  refine ⟨rfl, fun msg => rfl, ?_⟩
  intro pr
  cases pr <;> simp [health]

/-- C7: `is_debug` holds exactly when the stored debug string, lower-cased,
equals "true"; concretely "True" and "TRUE" give true while "", "false"
and "1" give false. -/
theorem c7_is_debug_iff_lower_true (s : Settings) :
    s.is_debug = (pyLower s.debug == "true") ∧
    (withDebug "True").is_debug = true ∧
    (withDebug "TRUE").is_debug = true ∧
    (withDebug "").is_debug = false ∧
    (withDebug "false").is_debug = false ∧
    (withDebug "1").is_debug = false := by
  refine ⟨rfl, ?_, ?_, ?_, ?_, ?_⟩ <;> decide

/-- C8 (code bug evaluated): constructing settings from an environment
without CORS_ORIGINS leaves `cors_origins` holding the unvalidated Python
list default — not a raw string as the field's own `str` annotation and
the claim state — so `cors_origins_list` raises AttributeError (`none`);
splitting only works when a string is stored, e.g. "a, b,c" gives
["a", "b", "c"]. -/
theorem c8_cors_default_is_list_not_string :
    Settings.construct goodEnv [] = Except.ok goodSettings ∧
    goodSettings.cors_origins = PyStrOrList.plist corsDefaultList ∧
    goodSettings.cors_origins_list = none ∧
    ({ goodSettings with cors_origins := PyStrOrList.pstr "a, b,c" }).cors_origins_list
      = some ["a", "b", "c"] := by
  exact ⟨rfl, rfl, rfl, rfl⟩

/-- C3 (amended): when the selected tiered override file exists, its
key/value pairs are loaded into the process environment only for keys the
environment does not already define; a pre-existing environment entry
takes precedence over the file's value (python-dotenv's `override=False`
default), the opposite of the claimed precedence. -/
theorem c3_tiered_file_fills_only_absent (fs : FS) (env0 : Env) (F : Env)
    (hF : fsGet fs (envFileFor ((getenvCS env0 "ENVIRONMENT").getD "development")) = some F) :
    ∀ k, getenvCS (resolveEnv fs env0) k =
      match getenvCS env0 k with
      | some v => some v
      | none => getenvCS (parse_dotenv F) k := by
  intro k
  rw [resolveEnv_tiered fs env0 F hF, getenvCS_load_dotenv]

/-- C3 counterexample: with `.env.production` present and defining
SUPABASE_URL as "fromfile" while the process environment already holds
"preexisting", resolution keeps "preexisting" — the file's value does not
take precedence as the claim states. -/
theorem c3_preexisting_env_wins_counterexample :
    getenvCS (resolveEnv c3fs c3env) "SUPABASE_URL" = some "preexisting" ∧
    ("preexisting" : String) ≠ "fromfile" := by
  exact ⟨rfl, by decide⟩

/-- Witness for C3's amended theorem at the concrete c3 fixtures. -/
theorem c3_witness :
    getenvCS (resolveEnv c3fs c3env) "SUPABASE_URL" =
      match getenvCS c3env "SUPABASE_URL" with
      | some v => some v
      | none => getenvCS (parse_dotenv [("SUPABASE_URL", "fromfile")]) "SUPABASE_URL" :=
  c3_tiered_file_fills_only_absent c3fs c3env [("SUPABASE_URL", "fromfile")] rfl "SUPABASE_URL"

/-- C4: with selector "production" and both `.env.production` and `.env`
present, the process environment after module load is the environment
overlaid by the tiered file on absent keys only; pydantic's ".env" source
never overrides a resolved environment value and only fills fields that
are otherwise absent; concretely, an overlapping key takes the tiered
file's value and a key defined only in ".env" is still applied. -/
theorem c4_generic_env_lowest_precedence (fs : FS) (env0 : Env) (P E : Env)
    (hsel : getenvCS env0 "ENVIRONMENT" = some "production")
    (hP : fsGet fs ".env.production" = some P)
    (hE : fsGet fs ".env" = some E) :
    (∀ k, getenvCS (resolveEnv fs env0) k =
        match getenvCS env0 k with
        | some v => some v
        | none => getenvCS (parse_dotenv P) k) ∧
    (∀ n v, lookupCI (resolveEnv fs env0) n = some v →
        resolvedFieldValue fs env0 n = some v) ∧
    (∀ n, lookupCI (resolveEnv fs env0) n = none →
        resolvedFieldValue fs env0 n = lookupCI (parse_dotenv E) n) ∧
    resolvedFieldValue c4fs c4env "supabase_url" = some "prod-url" ∧
    resolvedFieldValue c4fs c4env "jwt_secret_key" = some "generic-secret" := by
  have hF : fsGet fs (envFileFor ((getenvCS env0 "ENVIRONMENT").getD "development")) = some P := by
    rw [hsel]
    exact hP
  refine ⟨?_, ?_, ?_, rfl, rfl⟩
  · intro k
    rw [resolveEnv_tiered fs env0 P hF, getenvCS_load_dotenv]
  · intro n v h
    unfold resolvedFieldValue resolveField
    rw [h]
  · intro n h
    unfold resolvedFieldValue resolveField pydotenv
    rw [h, hE]
    rfl

/-- Witness for C4 at the concrete c4 fixtures. -/
theorem c4_witness :
    resolvedFieldValue c4fs c4env "supabase_url" = some "prod-url" ∧
    resolvedFieldValue c4fs c4env "jwt_secret_key" = some "generic-secret" :=
  (c4_generic_env_lowest_precedence c4fs c4env
    [("SUPABASE_URL", "prod-url")]
    [("SUPABASE_URL", "generic-url"), ("JWT_SECRET_KEY", "generic-secret")]
    rfl rfl rfl).2.2.2

/-- C5: whenever at least one required field is missing, construction
fails with a validation error, and the error lists every missing required
field, not just the first. -/
theorem c5_missing_required_all_reported (env dotenv : Env)
    (hmiss : ∃ n, n ∈ requiredFields ∧ resolveField env dotenv n = none) :
    Settings.construct env dotenv = Except.error (constructionErrors env dotenv) ∧
    ∀ n, n ∈ requiredFields → resolveField env dotenv n = none →
      n ∈ constructionErrors env dotenv := by
  have hmem : ∀ n, n ∈ requiredFields → resolveField env dotenv n = none →
      n ∈ constructionErrors env dotenv := by
    intro n hn hnone
    unfold constructionErrors
    apply List.mem_append_left
    unfold missingRequired
    rw [List.mem_filter]
    exact ⟨hn, by rw [hnone]; rfl⟩
  obtain ⟨n, hn, hnone⟩ := hmiss
  have hne : (constructionErrors env dotenv).isEmpty = false := by
    cases h : constructionErrors env dotenv with
    | nil =>
      have := hmem n hn hnone
      rw [h] at this
      exact absurd this (List.not_mem_nil n)
    | cons a tl => rfl
  constructor
  · unfold Settings.construct
    simp only [hne, Bool.false_eq_true, if_false]
  · exact hmem

/-- Witness for C5: an environment supplying only SUPABASE_URL fails
construction and the error names jwt_secret_key among the missing fields. -/
theorem c5_witness :
    Settings.construct c5env [] = Except.error (constructionErrors c5env []) ∧
    "jwt_secret_key" ∈ constructionErrors c5env [] := by
  have h := c5_missing_required_all_reported c5env [] ⟨"jwt_secret_key", by decide, rfl⟩
  exact ⟨h.1, h.2 "jwt_secret_key" (by decide) rfl⟩

/-- C6 (amended): successful construction guarantees that every required
field was supplied by the environment or the dotenv file — presence, not
non-emptiness: a supplied empty string is accepted and stored as-is, so
construction does not fail on empty required fields. -/
theorem c6_success_implies_required_present (env dotenv : Env) (s : Settings)
    (h : Settings.construct env dotenv = Except.ok s) :
    ∀ n, n ∈ requiredFields → (resolveField env dotenv n).isSome = true := by
  intro n hn
  cases hemp : (constructionErrors env dotenv).isEmpty with
  | false =>
    unfold Settings.construct at h
    simp only [hemp, Bool.false_eq_true, if_false] at h
    exact Except.noConfusion h
  | true =>
    cases hv : resolveField env dotenv n with
    | some v => rfl
    | none =>
      have hmem : n ∈ missingRequired env dotenv := by
        unfold missingRequired
        rw [List.mem_filter]
        exact ⟨hn, by rw [hv]; rfl⟩
      have hnil : constructionErrors env dotenv = [] := List.isEmpty_iff.mp hemp
      unfold constructionErrors at hnil
      rw [List.append_eq_nil] at hnil
      rw [hnil.1] at hmem
      exact absurd hmem (List.not_mem_nil n)

/-- C6 counterexample: an environment supplying the empty string for every
required field constructs successfully, and the resulting settings store
empty strings — refuting both that required fields are non-empty after
construction and that empty-string inputs make construction fail. -/
theorem c6_empty_string_accepted_counterexample :
    Settings.construct c6env [] = Except.ok c6settings ∧
    c6settings.supabase_url = "" ∧
    c6settings.jwt_secret_key = "" := by
  exact ⟨rfl, rfl, rfl⟩

/-- Witness for C6's amended theorem at the concrete c6 fixtures. -/
theorem c6_witness :
    (resolveField c6env [] "supabase_url").isSome = true :=
  c6_success_implies_required_present c6env [] c6settings rfl "supabase_url" (by decide)

/-- C9: `get_settings` constructs on first call and caches; every
subsequent call returns the same cached instance without consulting the
(possibly different) environment or files again. -/
theorem c9_get_settings_idempotent (env dotenv : Env) (s : Settings)
    (h : Settings.construct env dotenv = Except.ok s) :
    get_settings none env dotenv = Except.ok (s, some s) ∧
    ∀ env2 dotenv2, get_settings (some s) env2 dotenv2 = Except.ok (s, some s) := by
  constructor
  · unfold get_settings
    rw [h]
  · intro env2 dotenv2
    rfl

/-- Witness for C9: first call from an empty cache on a valid environment,
then a second call whose environment is even emptied out, both yielding
the same instance. -/
theorem c9_witness :
    get_settings none goodEnv [] = Except.ok (goodSettings, some goodSettings) ∧
    get_settings (some goodSettings) [] [] = Except.ok (goodSettings, some goodSettings) :=
  ⟨(c9_get_settings_idempotent goodEnv [] goodSettings rfl).1,
   (c9_get_settings_idempotent goodEnv [] goodSettings rfl).2 [] []⟩
